import Mathlib

/-!
# Verification of the authentication / session-lifecycle core and the
# invoice sequence allocator of the alias admin backend

Shallow embedding of the relevant source:
- `src/src/routes/auth.ts`, two variants separated in the file:
  variant A (rotating refresh tokens) and variant B (non-rotating).
- `src/unnamed/part_003` (`lib/jwt.ts`): `signAccess` with default ttl `'15m'`.
- `src/unnamed/part_000` (prisma migration): `Role`, `User`, `RefreshToken`,
  `Invoice` tables and the `Invoice_invoiceNumber_key` unique index.
- `src/unnamed/part_005` (`routes/invoices.ts`): `generateInvoiceNumber` and
  the `P2002 -> 409` handler of `POST /invoices`.

Time is modelled as milliseconds since the epoch (`Nat`).  The SHA-256 hash
used for refresh secrets is an external crypto primitive and is threaded
through the operations as an explicit function parameter `hash`.
-/

namespace AliasAdmin

/-- `Role` enum from the prisma migration (part_000). -/
inductive Role where
  | SUPER_ADMIN
  | ADMIN
  | SALES
  | MARKETING
  | USER
deriving DecidableEq, Repr

/-- `User` table row (part_000): id, unique email, optional name/image/googleId,
role (default USER in the schema, set explicitly at creation by the route),
isActive flag. -/
structure User where
  id : String
  email : String
  name : Option String
  image : Option String
  googleId : Option String
  role : Role
  isActive : Bool
deriving DecidableEq, Repr

/-- `RefreshToken` table row (part_000): id, owning user id, one-way hash of the
opaque secret, expiry, nullable revocation timestamp, nullable pointer to the
hash of the replacing token. -/
structure RefreshTokenRec where
  id : String
  userId : String
  hashedToken : String
  expiresAt : Nat
  revokedAt : Option Nat
  replacedByToken : Option String
deriving DecidableEq, Repr

/-- The mutable state the auth routes touch: the User and RefreshToken tables. -/
structure AuthState where
  users : List User
  tokens : List RefreshTokenRec
deriving DecidableEq, Repr

/-- Claims carried by an access token: `{ sub, role, email }` as signed by the
routes (`signAccess({ sub: user.id, role: user.role, email: user.email })`). -/
structure AccessClaims where
  sub : String
  role : Role
  email : String
deriving DecidableEq, Repr

/-- A signed access token (part_003 `signAccess`): jwt.sign embeds the claims
together with an expiry `ttl` seconds from issuance.  Modelled as the claims
plus the ttl the token was signed with. -/
structure SignedAccess where
  claims : AccessClaims
  ttlSeconds : Nat
deriving DecidableEq, Repr

/-- part_003: `signAccess(payload, expiresIn = '15m')`; `'15m'` is 900 seconds.
Every call site in both auth variants omits the second argument, so the
default applies. -/
def ACCESS_TTL_DEFAULT_SECONDS : Nat := 15 * 60

/-- part_003 `signAccess`: sign the payload with the given ttl. -/
def signAccess (claims : AccessClaims) (ttlSeconds : Nat) : SignedAccess :=
  { claims := claims, ttlSeconds := ttlSeconds }

/-- The identity payload extracted from a verified Google id token
(`verifyGoogleIdToken` result as destructured by the routes). -/
structure GooglePayload where
  email : String
  sub : String
  name : Option String
  picture : Option String
deriving DecidableEq, Repr

/-- Uniform response shape of the auth endpoints: HTTP status plus the fields
of the `data` object that the claims are about. -/
structure AuthResponse where
  status : Nat
  user : Option User
  accessToken : Option SignedAccess
  refreshToken : Option String
  expiresIn : Option Nat
deriving DecidableEq, Repr

/-- auth.ts: `new Date(Date.now() + 30 * 24 * 3600 * 1000)` (variant A) and
`THIRTY_DAYS_MS = 30 * 24 * 60 * 60 * 1000` (variant B). -/
def THIRTY_DAYS_MS : Nat := 30 * 24 * 3600 * 1000

/-- Variant B: `ACCESS_EXPIRES_IN_SECONDS = 2 * 60 * 60`. -/
def ACCESS_EXPIRES_IN_SECONDS : Nat := 2 * 60 * 60

/-- Predicate of `prisma.refreshToken.findFirst({ where: { hashedToken, revokedAt: null } })`. -/
def isLiveWithHash (h : String) (t : RefreshTokenRec) : Bool :=
  t.hashedToken == h && t.revokedAt.isNone

/-- The `findFirst` lookup itself: first record matching the hash that is not revoked. -/
def findLiveByHash (tokens : List RefreshTokenRec) (h : String) : Option RefreshTokenRec :=
  tokens.find? (isLiveWithHash h)

/-- `prisma.user.upsert({ where: { email }, ... })` update branch: replace the
first (unique) record with the given email. -/
def updateFirstByEmail (users : List User) (email : String) (u' : User) : List User :=
  match users with
  | [] => []
  | u :: rest =>
    if u.email == email then u' :: rest else u :: updateFirstByEmail rest email u'

/-- `prisma.user.upsert({ where: { email }, create: { email, googleId, name, image, role },
update: { googleId, name, image } })`, shared by both variants.  Returns the
resulting user and the updated table.  `freshId` stands for the id the
datastore generates for a created row. -/
def upsertUserByEmail (users : List User) (email googleId : String)
    (name image : Option String) (role : Role) (freshId : String) : User × List User :=
  match users.find? (fun u => u.email == email) with
  | some u =>
    let u' : User := { u with googleId := some googleId, name := name, image := image }
    (u', updateFirstByEmail users email u')
  | none =>
    let u : User :=
      { id := freshId, email := email, name := name, image := image,
        googleId := some googleId, role := role, isActive := true }
    (u, users ++ [u])

/-- Variant A `POST /auth/google` (auth.ts lines 13-40), after successful body
parse and Google verification.  `rawRefresh` stands for the 32 random bytes in
hex; `freshUserId` / `freshTokenId` for datastore-generated ids. -/
def loginA (hash : String → String) (now : Nat) (payload : GooglePayload)
    (freshUserId freshTokenId rawRefresh : String) (st : AuthState) :
    AuthResponse × AuthState :=
  let count := st.users.length
  let role := if count == 0 then Role.SUPER_ADMIN else Role.USER
  let res := upsertUserByEmail st.users payload.email payload.sub payload.name
      payload.picture role freshUserId
  let user := res.fst
  let accessToken := signAccess
      { sub := user.id, role := user.role, email := user.email } ACCESS_TTL_DEFAULT_SECONDS
  let hashed := hash rawRefresh
  let expiresAt := now + THIRTY_DAYS_MS
  let tok : RefreshTokenRec :=
    { id := freshTokenId, userId := user.id, hashedToken := hashed,
      expiresAt := expiresAt, revokedAt := none, replacedByToken := none }
  ({ status := 200, user := some user, accessToken := some accessToken,
     refreshToken := some rawRefresh, expiresIn := some 900 },
   { users := res.snd, tokens := st.tokens ++ [tok] })

/-- Variant B `POST /auth/google` (auth.ts lines 108-153): same upsert, then
`deleteMany({ where: { userId: user.id } })` before creating the new token;
response carries `expiresIn: ACCESS_EXPIRES_IN_SECONDS`. -/
def loginB (hash : String → String) (now : Nat) (payload : GooglePayload)
    (freshUserId freshTokenId rawRefresh : String) (st : AuthState) :
    AuthResponse × AuthState :=
  let count := st.users.length
  let role := if count == 0 then Role.SUPER_ADMIN else Role.USER
  let res := upsertUserByEmail st.users payload.email payload.sub payload.name
      payload.picture role freshUserId
  let user := res.fst
  let kept := st.tokens.filter (fun t => !(t.userId == user.id))
  let hashed := hash rawRefresh
  let tok : RefreshTokenRec :=
    { id := freshTokenId, userId := user.id, hashedToken := hashed,
      expiresAt := now + THIRTY_DAYS_MS, revokedAt := none, replacedByToken := none }
  let accessToken := signAccess
      { sub := user.id, role := user.role, email := user.email } ACCESS_TTL_DEFAULT_SECONDS
  ({ status := 200, user := some user, accessToken := some accessToken,
     refreshToken := some rawRefresh, expiresIn := some ACCESS_EXPIRES_IN_SECONDS },
   { users := res.snd, tokens := kept ++ [tok] })

/-- `prisma.refreshToken.update({ where: { id }, data: { revokedAt, replacedByToken } })`:
update the record with the given (unique) id. -/
def revokeTokenById (tokens : List RefreshTokenRec) (tid : String) (now : Nat)
    (newHashed : String) : List RefreshTokenRec :=
  tokens.map (fun t =>
    if t.id == tid then { t with revokedAt := some now, replacedByToken := some newHashed }
    else t)

/-- Variant A `POST /auth/refresh` (auth.ts lines 42-62).  The body is
`req.body.refreshToken`; `none` or the empty string is the JS-falsy 400 case.
On success the old record is revoked and linked, a new record is created
(`freshTokenId`, secret `freshRaw`), and the raw new secret is returned. -/
def refreshA (hash : String → String) (now : Nat) (freshTokenId freshRaw : String)
    (body : Option String) (st : AuthState) : AuthResponse × AuthState :=
  match body with
  | none =>
    ({ status := 400, user := none, accessToken := none,
       refreshToken := none, expiresIn := none }, st)
  | some raw =>
    if raw == "" then
      ({ status := 400, user := none, accessToken := none,
         refreshToken := none, expiresIn := none }, st)
    else
      let hashed := hash raw
      match findLiveByHash st.tokens hashed with
      | none =>
        ({ status := 401, user := none, accessToken := none,
           refreshToken := none, expiresIn := none }, st)
      | some tok =>
        if tok.expiresAt < now then
          ({ status := 401, user := none, accessToken := none,
             refreshToken := none, expiresIn := none }, st)
        else
          match st.users.find? (fun u => u.id == tok.userId) with
          | none =>
            ({ status := 401, user := none, accessToken := none,
               refreshToken := none, expiresIn := none }, st)
          | some user =>
            let newHashed := hash freshRaw
            let newTok : RefreshTokenRec :=
              { id := freshTokenId, userId := user.id, hashedToken := newHashed,
                expiresAt := now + THIRTY_DAYS_MS, revokedAt := none,
                replacedByToken := none }
            let tokens' := revokeTokenById st.tokens tok.id now newHashed ++ [newTok]
            let accessToken := signAccess
                { sub := user.id, role := user.role, email := user.email }
                ACCESS_TTL_DEFAULT_SECONDS
            ({ status := 200, user := none, accessToken := some accessToken,
               refreshToken := some freshRaw, expiresIn := some 900 },
             { users := st.users, tokens := tokens' })

/-- Variant B `POST /auth/refresh` (auth.ts lines 155-183).  The body is parsed
with `z.string().min(10)`; lookup is the same, expiry check uses `<=`, no
rotation happens and the same raw token is echoed back. -/
def refreshB (hash : String → String) (now : Nat) (body : Option String)
    (st : AuthState) : AuthResponse × AuthState :=
  match body with
  | none =>
    ({ status := 400, user := none, accessToken := none,
       refreshToken := none, expiresIn := none }, st)
  | some raw =>
    if raw.length < 10 then
      ({ status := 400, user := none, accessToken := none,
         refreshToken := none, expiresIn := none }, st)
    else
      let hashed := hash raw
      match findLiveByHash st.tokens hashed with
      | none =>
        ({ status := 401, user := none, accessToken := none,
           refreshToken := none, expiresIn := none }, st)
      | some tok =>
        if tok.expiresAt ≤ now then
          ({ status := 401, user := none, accessToken := none,
             refreshToken := none, expiresIn := none }, st)
        else
          match st.users.find? (fun u => u.id == tok.userId) with
          | none =>
            ({ status := 401, user := none, accessToken := none,
               refreshToken := none, expiresIn := none }, st)
          | some user =>
            let accessToken := signAccess
                { sub := user.id, role := user.role, email := user.email }
                ACCESS_TTL_DEFAULT_SECONDS
            ({ status := 200, user := none, accessToken := some accessToken,
               refreshToken := some raw, expiresIn := some ACCESS_EXPIRES_IN_SECONDS },
             st)

/-- `prisma.refreshToken.updateMany({ where: { hashedToken, revokedAt: null },
data: { revokedAt: new Date() } })`, shared by both logout variants. -/
def revokeLiveByHash (tokens : List RefreshTokenRec) (h : String) (now : Nat) :
    List RefreshTokenRec :=
  tokens.map (fun t =>
    if isLiveWithHash h t then { t with revokedAt := some now } else t)

/-- Variant A `POST /auth/logout` (auth.ts lines 64-70): JS-falsy body check,
then `updateMany` revocation; always responds 200. -/
def logoutA (hash : String → String) (now : Nat) (body : Option String)
    (st : AuthState) : AuthResponse × AuthState :=
  match body with
  | none =>
    ({ status := 200, user := none, accessToken := none,
       refreshToken := none, expiresIn := none }, st)
  | some raw =>
    if raw == "" then
      ({ status := 200, user := none, accessToken := none,
         refreshToken := none, expiresIn := none }, st)
    else
      ({ status := 200, user := none, accessToken := none,
         refreshToken := none, expiresIn := none },
       { st with tokens := revokeLiveByHash st.tokens (hash raw) now })

/-- Variant B `POST /auth/logout` (auth.ts lines 185-198): body parsed with
`z.string().min(10)`; a parse failure is still a 200 with no mutation. -/
def logoutB (hash : String → String) (now : Nat) (body : Option String)
    (st : AuthState) : AuthResponse × AuthState :=
  match body with
  | none =>
    ({ status := 200, user := none, accessToken := none,
       refreshToken := none, expiresIn := none }, st)
  | some raw =>
    if raw.length < 10 then
      ({ status := 200, user := none, accessToken := none,
         refreshToken := none, expiresIn := none }, st)
    else
      ({ status := 200, user := none, accessToken := none,
         refreshToken := none, expiresIn := none },
       { st with tokens := revokeLiveByHash st.tokens (hash raw) now })

/-! ## Invoice sequence allocator (part_005) and persistence (part_000 schema) -/

/-- A local calendar date-time as the invoice code manipulates it:
`getFullYear` / `getMonth()+1` / `getDate` plus the time of day in
milliseconds (`setHours(0,0,0,0)` / `setHours(23,59,59,999)` clamp it). -/
structure CivilDate where
  year : Nat
  month : Nat
  day : Nat
  msOfDay : Nat
deriving DecidableEq, Repr

/-- Chronological order on `CivilDate`: lexicographic on
(year, month, day, msOfDay), matching Date comparison for local dates. -/
def CivilDate.leB (a b : CivilDate) : Bool :=
  Nat.blt a.year b.year ||
    (a.year == b.year && (Nat.blt a.month b.month ||
      (a.month == b.month && (Nat.blt a.day b.day ||
        (a.day == b.day && Nat.ble a.msOfDay b.msOfDay)))))

/-- `startOfDay.setHours(0, 0, 0, 0)`. -/
def startOfDay (d : CivilDate) : CivilDate := { d with msOfDay := 0 }

/-- `endOfDay.setHours(23, 59, 59, 999)`. -/
def endOfDay (d : CivilDate) : CivilDate := { d with msOfDay := 86399999 }

/-- The columns of the `Invoice` table (part_000) that the numbering logic
reads and writes. -/
structure Invoice where
  invoiceNumber : String
  date : CivilDate
  country : String
deriving DecidableEq, Repr

/-- part_005 `COUNTRY_CODE_MAP`. -/
def COUNTRY_CODE_MAP (country : String) : Option String :=
  if country == "Russia" then some "RU"
  else if country == "Uzbekistan" then some "UZ"
  else if country == "Kazakhstan" then some "KZ"
  else if country == "Kyrgyzstan" then some "KG"
  else none

/-- `COUNTRY_CODE_MAP[country] || country.substring(0, 2).toUpperCase()`. -/
def countryCodeOf (country : String) : String :=
  match COUNTRY_CODE_MAP country with
  | some c => c
  | none => (country.take 2).toUpper

/-- JS `String.prototype.padStart(n, c)`. -/
def padStart (n : Nat) (c : Char) (s : String) : String :=
  if n ≤ s.length then s else String.mk (List.replicate (n - s.length) c) ++ s

/-- `` `${year}${month}${day}` `` with month and day padded to two digits. -/
def dateYYYYMMDD (d : CivilDate) : String :=
  toString d.year ++ padStart 2 '0' (toString d.month) ++ padStart 2 '0' (toString d.day)

/-- The `where` clause of the `prisma.invoice.count` call in
`generateInvoiceNumber`: same country, date within `[startOfDay, endOfDay]`. -/
def invoiceMatches (country : String) (d : CivilDate) (i : Invoice) : Bool :=
  i.country == country && CivilDate.leB (startOfDay d) i.date
    && CivilDate.leB i.date (endOfDay d)

/-- part_005 `generateInvoiceNumber(country, date)`: `{COUNTRY_CODE}-{YYYYMMDD}{SEQ}`
with SEQ the count of matching invoices plus one, padded to two digits. -/
def generateInvoiceNumber (invoices : List Invoice) (country : String)
    (date : CivilDate) : String :=
  let countryCode := countryCodeOf country
  let dateStr := dateYYYYMMDD date
  let count := (invoices.filter (invoiceMatches country date)).length
  let sequence := padStart 2 '0' (toString (count + 1))
  countryCode ++ "-" ++ dateStr ++ sequence

/-- `prisma.invoice.create` against the `Invoice_invoiceNumber_key` unique
index (part_000): inserting a row whose `invoiceNumber` already exists raises
prisma error `P2002` and leaves the table unchanged; otherwise the row is
appended. -/
def invoiceCreateDb (invoices : List Invoice) (inv : Invoice) :
    Except String (List Invoice) :=
  if invoices.any (fun i => i.invoiceNumber == inv.invoiceNumber) then
    Except.error "P2002"
  else
    Except.ok (invoices ++ [inv])

/-- HTTP status plus resulting table of the persistence step of
`POST /invoices`. -/
structure PersistResult where
  status : Nat
  invoices : List Invoice
deriving DecidableEq, Repr

/-- The persistence step of `invoicesRouter.post('/')` (part_005 lines
487-544): `prisma.invoice.create`, answering 201 on success and mapping a
caught `P2002` to a 409 "Invoice number already exists". -/
def postInvoicePersist (invoices : List Invoice) (inv : Invoice) : PersistResult :=
  match invoiceCreateDb invoices inv with
  | Except.ok invs => { status := 201, invoices := invs }
  | Except.error e =>
    if e == "P2002" then { status := 409, invoices := invoices }
    else { status := 500, invoices := invoices }

/-- Two concurrent `POST /invoices` requests for the same country and day,
interleaved so that both run `generateInvoiceNumber` against the same table
snapshot before either insert commits (the race §4.5 of the spec describes). -/
def twoWriterScenario (invoices : List Invoice) (country : String)
    (d : CivilDate) : PersistResult × PersistResult :=
  let numFirst := generateInvoiceNumber invoices country d
  let numSecond := generateInvoiceNumber invoices country d
  let r1 := postInvoicePersist invoices { invoiceNumber := numFirst, date := d, country := country }
  let r2 := postInvoicePersist r1.invoices { invoiceNumber := numSecond, date := d, country := country }
  (r1, r2)

/-! ### Token-store string inventory (for the raw-secret non-retention claim) -/

/-- Every string stored in one `RefreshToken` row. -/
def tokenStrings (t : RefreshTokenRec) : List String :=
  [t.id, t.userId, t.hashedToken] ++ t.replacedByToken.toList

/-- Every string stored anywhere in the refresh-token table. -/
def storeStrings (tokens : List RefreshTokenRec) : List String :=
  tokens.flatMap tokenStrings

/-! ### Concrete fixtures used to instantiate the theorems -/

/-- A stand-in hash for concrete instantiations (prefix marking).  The real
SHA-256 is an external primitive; every theorem takes the hash as a
parameter. -/
def exHash : String → String := fun s => "#" ++ s

/-- A raw refresh secret for the fixture token. -/
def exRawT : String := "rawsecret-T-0001"

/-- A fixture user owning the fixture tokens. -/
def exUser : User :=
  { id := "u1", email := "a@b.c", name := none, image := none,
    googleId := some "g", role := Role.USER, isActive := true }

/-- A live refresh token for `exUser`, expiring at t = 1000. -/
def exTokenT : RefreshTokenRec :=
  { id := "t1", userId := "u1", hashedToken := exHash exRawT,
    expiresAt := 1000, revokedAt := none, replacedByToken := none }

/-- One user, one live token. -/
def exState : AuthState := { users := [exUser], tokens := [exTokenT] }

/-- A Google payload matching `exUser`'s email. -/
def exPayload : GooglePayload :=
  { email := "a@b.c", sub := "g2", name := some "N", picture := none }

/-- A Google payload for a not-yet-existing user. -/
def exNewPayload : GooglePayload :=
  { email := "new@b.c", sub := "g3", name := none, picture := none }

/-- The pristine system: no users, no tokens. -/
def exEmptyState : AuthState := { users := [], tokens := [] }

/-- A raw secret whose token has been revoked. -/
def exRawR : String := "rawsecret-R-0002"

/-- A revoked refresh token for `exUser`. -/
def exTokenR : RefreshTokenRec :=
  { id := "t2", userId := "u1", hashedToken := exHash exRawR,
    expiresAt := 1000, revokedAt := some 3, replacedByToken := none }

/-- One user, one revoked token. -/
def exRevokedState : AuthState := { users := [exUser], tokens := [exTokenR] }

/-- A live token whose owning user is absent from the user table. -/
def exTokenOrphan : RefreshTokenRec :=
  { id := "t3", userId := "ghost", hashedToken := exHash "rawsecret-O-0003",
    expiresAt := 1000, revokedAt := none, replacedByToken := none }

/-- A state whose only token belongs to a deleted user. -/
def exOrphanState : AuthState := { users := [exUser], tokens := [exTokenOrphan] }

/-- 2025-11-20, 10:00 local time. -/
def exDay : CivilDate := { year := 2025, month := 11, day := 20, msOfDay := 36000000 }

/-- An invoice for Kazakhstan on `exDay`. -/
def exInvoiceKZ : Invoice :=
  { invoiceNumber := "KZ-2025112001",
    date := { year := 2025, month := 11, day := 20, msOfDay := 100 },
    country := "Kazakhstan" }

/-! ## Helper lemmas -/

/-- A user that does not carry the matched email survives the upsert update
branch untouched. -/
theorem mem_updateFirstByEmail_of_ne {users : List User} {email : String}
    {u' v : User} (hv : v ∈ users) (hne : v.email ≠ email) :
    v ∈ updateFirstByEmail users email u' := by
  induction users with
  | nil => cases hv
  | cons w rest ih =>
    rcases List.mem_cons.mp hv with h | h
    · subst h
      have : (v.email == email) = false := beq_eq_false_iff_ne.mpr hne
      simp [updateFirstByEmail, this]
    · by_cases hw : (w.email == email) = true
      · simp [updateFirstByEmail, hw, List.mem_cons, h]
      · have hw' : (w.email == email) = false := by simpa using hw
        simp only [updateFirstByEmail, hw', Bool.false_eq_true, if_false, List.mem_cons]
        exact Or.inr (ih h)

/-- When a record with the matched email exists, the updated record is stored. -/
theorem mem_updateFirstByEmail_self {users : List User} {email : String}
    {u u' : User} (hfind : users.find? (fun v => v.email == email) = some u) :
    u' ∈ updateFirstByEmail users email u' := by
  induction users with
  | nil => simp at hfind
  | cons w rest ih =>
    by_cases hw : (w.email == email) = true
    · simp [updateFirstByEmail, hw]
    · rw [List.find?_cons_of_neg _ (by simp [hw])] at hfind
      have hw' : (w.email == email) = false := by simpa using hw
      simp only [updateFirstByEmail, hw', Bool.false_eq_true, if_false, List.mem_cons]
      exact Or.inr (ih hfind)

/-- The `updateMany` revocation touches nothing when no live record matches. -/
theorem revokeLiveByHash_eq_self {tokens : List RefreshTokenRec} {h : String}
    (now : Nat) (hnone : findLiveByHash tokens h = none) :
    revokeLiveByHash tokens h now = tokens := by
  rw [findLiveByHash, List.find?_eq_none] at hnone
  unfold revokeLiveByHash
  conv_rhs => rw [← List.map_id tokens]
  apply List.map_congr_left
  intro t ht
  have : isLiveWithHash h t = false := by
    have := hnone t ht
    simpa using this
  simp [this]

/-- Membership in the token-store string inventory. -/
theorem mem_storeStrings {tokens : List RefreshTokenRec} {a : String} :
    a ∈ storeStrings tokens ↔ ∃ t ∈ tokens, a ∈ tokenStrings t := by
  simp [storeStrings, List.mem_flatMap]

/-- Rotation's revocation update adds no string to a record except the hash of
the replacing token. -/
theorem not_mem_storeStrings_revoke {tokens : List RefreshTokenRec}
    {a tid nh : String} {now : Nat}
    (h1 : a ∉ storeStrings tokens) (h2 : nh ≠ a) :
    a ∉ storeStrings (revokeTokenById tokens tid now nh) := by
  intro hmem
  rw [mem_storeStrings] at hmem
  obtain ⟨t', ht', ha⟩ := hmem
  rw [revokeTokenById, List.mem_map] at ht'
  obtain ⟨t, ht, hgt⟩ := ht'
  by_cases hid : (t.id == tid) = true
  · rw [if_pos hid] at hgt
    subst hgt
    simp only [tokenStrings, Option.toList_some, List.mem_append, List.mem_cons,
      List.mem_singleton, List.not_mem_nil, or_false] at ha
    rcases ha with (ha | ha | ha) | ha
    · exact h1 (mem_storeStrings.mpr ⟨t, ht, by simp [tokenStrings, ha]⟩)
    · exact h1 (mem_storeStrings.mpr ⟨t, ht, by simp [tokenStrings, ha]⟩)
    · exact h1 (mem_storeStrings.mpr ⟨t, ht, by simp [tokenStrings, ha]⟩)
    · exact h2 ha.symm
  · rw [if_neg hid] at hgt
    subst hgt
    exact h1 (mem_storeStrings.mpr ⟨t, ht, ha⟩)

/-- The id of the user an upsert answers with: the fresh id (create branch) or
the id of an already-stored user (update branch). -/
theorem upsertUserByEmail_fst_id (users : List User) (email gid : String)
    (n i : Option String) (role : Role) (fid : String) :
    (upsertUserByEmail users email gid n i role fid).fst.id = fid ∨
    ∃ u ∈ users, (upsertUserByEmail users email gid n i role fid).fst.id = u.id := by
  unfold upsertUserByEmail
  cases hfind : users.find? (fun u => u.email == email) with
  | none => simp
  | some u =>
    right
    exact ⟨u, List.mem_of_find?_eq_some hfind, rfl⟩

/-! ## Claims -/

/-- C3: On login, the very first user ever created (user count zero at
creation time) is assigned role SUPER_ADMIN, and a user created while the
count is nonzero is assigned role USER — in both auth variants. -/
theorem C3_bootstrap_role (hash : String → String) (now : Nat)
    (payload : GooglePayload) (fuid ftid raw : String) (st : AuthState) :
    (st.users = [] →
      ((loginA hash now payload fuid ftid raw st).fst.user.map User.role
          = some Role.SUPER_ADMIN ∧
       (loginB hash now payload fuid ftid raw st).fst.user.map User.role
          = some Role.SUPER_ADMIN)) ∧
    (st.users ≠ [] → (∀ u ∈ st.users, u.email ≠ payload.email) →
      ((loginA hash now payload fuid ftid raw st).fst.user.map User.role
          = some Role.USER ∧
       (loginB hash now payload fuid ftid raw st).fst.user.map User.role
          = some Role.USER)) := by
  obtain ⟨users, tokens⟩ := st
  constructor
  · intro h
    simp only [AuthState.users] at h
    subst h
    simp [loginA, loginB, upsertUserByEmail]
  · intro hne hmail
    simp only [AuthState.users] at hne hmail
    have hfind : users.find? (fun u => u.email == payload.email) = none := by
      rw [List.find?_eq_none]
      intro u hu
      simpa using hmail u hu
    have hlen : (users.length == 0) = false := by
      cases users with
      | nil => exact absurd rfl hne
      | cons u rest => rfl
    simp [loginA, loginB, upsertUserByEmail, hfind, hlen]

/-- C3 witness: on the empty system the created user is SUPER_ADMIN; on a
populated system a fresh email yields a USER. -/
theorem C3_bootstrap_role_witness :
    ((loginA exHash 0 exNewPayload "u9" "t9" exRawT exEmptyState).fst.user.map User.role
        = some Role.SUPER_ADMIN) ∧
    ((loginA exHash 0 exNewPayload "u9" "t9" exRawT exState).fst.user.map User.role
        = some Role.USER) := by
  constructor
  · exact ((C3_bootstrap_role exHash 0 exNewPayload "u9" "t9" exRawT exEmptyState).1 rfl).1
  · exact ((C3_bootstrap_role exHash 0 exNewPayload "u9" "t9" exRawT exState).2
      (by decide) (by decide)).1

/-- C4: `generateInvoiceNumber` is `{CODE}-{YYYYMMDD}{SEQ}` with SEQ the
zero-padded count of invoices already recorded for that partition key in the
day window, plus one; one more matching invoice advances the ordinal by one,
and with no matching invoice the ordinal restarts at 1 ("01"). -/
theorem C4_next_number (invoices : List Invoice) (country : String) (d : CivilDate) :
    (generateInvoiceNumber invoices country d =
      countryCodeOf country ++ "-" ++ dateYYYYMMDD d ++
        padStart 2 '0' (toString ((invoices.filter (invoiceMatches country d)).length + 1))) ∧
    (∀ inv, invoiceMatches country d inv = true →
      generateInvoiceNumber (invoices ++ [inv]) country d =
        countryCodeOf country ++ "-" ++ dateYYYYMMDD d ++
          padStart 2 '0' (toString ((invoices.filter (invoiceMatches country d)).length + 2))) ∧
    ((∀ i ∈ invoices, invoiceMatches country d i = false) →
      generateInvoiceNumber invoices country d =
        countryCodeOf country ++ "-" ++ dateYYYYMMDD d ++ "01") := by
  refine ⟨rfl, ?_, ?_⟩
  · intro inv hinv
    simp [generateInvoiceNumber, List.filter_append, hinv]
  · intro hall
    have hnil : invoices.filter (invoiceMatches country d) = [] := by
      rw [List.filter_eq_nil_iff]
      intro i hi
      simp [hall i hi]
    simp [generateInvoiceNumber, hnil]
    rfl

/-- C4 witness: with only a Kazakhstan invoice recorded on the day, the next
Russian number for that day carries ordinal 1, and a second Russian invoice
carries ordinal 2. -/
theorem C4_next_number_witness :
    (generateInvoiceNumber [exInvoiceKZ] "Russia" exDay =
      countryCodeOf "Russia" ++ "-" ++ dateYYYYMMDD exDay ++ "01") ∧
    (generateInvoiceNumber
        ([exInvoiceKZ] ++
          [({ invoiceNumber := "RU-2025112001", date := exDay, country := "Russia" } : Invoice)])
        "Russia" exDay =
      countryCodeOf "Russia" ++ "-" ++ dateYYYYMMDD exDay ++
        padStart 2 '0' (toString ((([exInvoiceKZ].filter
          (invoiceMatches "Russia" exDay))).length + 2))) := by
  constructor
  · exact (C4_next_number [exInvoiceKZ] "Russia" exDay).2.2 (by decide)
  · exact (C4_next_number [exInvoiceKZ] "Russia" exDay).2.1
      ({ invoiceNumber := "RU-2025112001", date := exDay, country := "Russia" } : Invoice)
      (by decide)

/-- C7: when two writers compute the same number from the same table snapshot,
the first insert succeeds with 201 and the second surfaces the unique-index
violation (P2002) as a 409 conflict, leaving the table exactly as the winner
wrote it; in general persisting a duplicate number never overwrites. -/
theorem C7_duplicate_number_conflict (invoices : List Invoice) (country : String)
    (d : CivilDate)
    (hfresh : ∀ i ∈ invoices, i.invoiceNumber ≠ generateInvoiceNumber invoices country d) :
    ((twoWriterScenario invoices country d).fst.status = 201) ∧
    ((twoWriterScenario invoices country d).snd.status = 409) ∧
    ((twoWriterScenario invoices country d).snd.invoices =
      invoices ++
        [({ invoiceNumber := generateInvoiceNumber invoices country d, date := d,
            country := country } : Invoice)]) ∧
    (∀ invs inv, (∃ i ∈ invs, i.invoiceNumber = inv.invoiceNumber) →
      postInvoicePersist invs inv = ({ status := 409, invoices := invs } : PersistResult)) := by
  have hany : (invoices.any
      (fun i => i.invoiceNumber == generateInvoiceNumber invoices country d)) = false := by
    rw [List.any_eq_false]
    intro i hi
    simpa using hfresh i hi
  have hdup : ∀ invs inv, (∃ i ∈ invs, i.invoiceNumber = inv.invoiceNumber) →
      postInvoicePersist invs inv = ({ status := 409, invoices := invs } : PersistResult) := by
    intro invs inv ⟨i, hi, he⟩
    have : (invs.any (fun j => j.invoiceNumber == inv.invoiceNumber)) = true := by
      rw [List.any_eq_true]
      exact ⟨i, hi, by simpa using he⟩
    simp [postInvoicePersist, invoiceCreateDb, this]
  refine ⟨?_, ?_, ?_, hdup⟩
  · simp [twoWriterScenario, postInvoicePersist, invoiceCreateDb, hany]
  · simp [twoWriterScenario, postInvoicePersist, invoiceCreateDb, hany, List.any_append]
  · simp [twoWriterScenario, postInvoicePersist, invoiceCreateDb, hany, List.any_append]

/-- C7 witness: on an empty table the two racing Russian writers get 201 and
409 respectively. -/
theorem C7_duplicate_number_conflict_witness :
    ((twoWriterScenario [] "Russia" exDay).fst.status = 201) ∧
    ((twoWriterScenario [] "Russia" exDay).snd.status = 409) := by
  have h := C7_duplicate_number_conflict [] "Russia" exDay (by simp)
  exact ⟨h.1, h.2.1⟩

/-- C10: variant B reports `expiresIn = 7200` on login and refresh while the
access token in the same response was signed with the default 15-minute ttl
(900 seconds); variant A consistently reports 900 for a 900-second token. -/
theorem C10_expiresIn_vs_signed_ttl :
    ((loginB exHash 0 exPayload "u9" "t9" exRawT exState).fst.expiresIn = some 7200) ∧
    ((loginB exHash 0 exPayload "u9" "t9" exRawT exState).fst.accessToken.map
        SignedAccess.ttlSeconds = some 900) ∧
    ((refreshB exHash 0 (some exRawT) exState).fst.expiresIn = some 7200) ∧
    ((refreshB exHash 0 (some exRawT) exState).fst.accessToken.map
        SignedAccess.ttlSeconds = some 900) ∧
    ((loginA exHash 0 exPayload "u9" "t9" exRawT exState).fst.expiresIn = some 900) ∧
    ((loginA exHash 0 exPayload "u9" "t9" exRawT exState).fst.accessToken.map
        SignedAccess.ttlSeconds = some 900) ∧
    (7200 ≠ 900) := by
  refine ⟨rfl, rfl, ?_, ?_, rfl, rfl, by decide⟩ <;> decide

/-- C6: logout answers 200 in every case, in both variants; and when called
with no token, or with a token matching no live record (never issued, unknown,
or already revoked), the refresh-token store is unchanged. -/
theorem C6_logout_idempotent (hash : String → String) (now : Nat)
    (body : Option String) (st : AuthState) :
    ((logoutA hash now body st).fst.status = 200 ∧
     (logoutB hash now body st).fst.status = 200) ∧
    ((∀ raw, body = some raw → findLiveByHash st.tokens (hash raw) = none) →
      (logoutA hash now body st).snd = st ∧ (logoutB hash now body st).snd = st) := by
  constructor
  · cases body with
    | none => exact ⟨rfl, rfl⟩
    | some raw =>
      constructor
      · by_cases h : (raw == "") = true <;> simp [logoutA, h]
      · by_cases h : raw.length < 10 <;> simp [logoutB, h]
  · intro hnone
    cases body with
    | none => exact ⟨rfl, rfl⟩
    | some raw =>
      have hrev := revokeLiveByHash_eq_self now (hnone raw rfl)
      constructor
      · by_cases h : (raw == "") = true
        · simp [logoutA, h]
        · simp [logoutA, h, hrev]
      · by_cases h : raw.length < 10
        · simp [logoutB, h]
        · simp [logoutB, h, hrev]

/-- C6 witness: logging out with the already-revoked fixture token answers 200
and leaves the store untouched. -/
theorem C6_logout_idempotent_witness :
    ((logoutA exHash 7 (some exRawR) exRevokedState).fst.status = 200) ∧
    ((logoutA exHash 7 (some exRawR) exRevokedState).snd = exRevokedState) := by
  refine ⟨(C6_logout_idempotent exHash 7 (some exRawR) exRevokedState).1.1, ?_⟩
  refine ((C6_logout_idempotent exHash 7 (some exRawR) exRevokedState).2 ?_).1
  intro raw hr
  injection hr with h
  subst h
  decide

/-- C8: a refresh whose token itself validates (matching live record, not
expired) but whose owning user no longer exists answers 401 and leaves the
token store unchanged — no new token is issued — in both variants. -/
theorem C8_refresh_user_missing (hash : String → String) (now : Nat)
    (ftid fraw raw : String) (st : AuthState) (tok : RefreshTokenRec)
    (hraw : raw ≠ "") (hlen : 10 ≤ raw.length)
    (hfind : findLiveByHash st.tokens (hash raw) = some tok)
    (hlive : now < tok.expiresAt)
    (hnouser : ∀ u ∈ st.users, u.id ≠ tok.userId) :
    (refreshA hash now ftid fraw (some raw) st).fst.status = 401 ∧
    (refreshA hash now ftid fraw (some raw) st).snd = st ∧
    (refreshB hash now (some raw) st).fst.status = 401 ∧
    (refreshB hash now (some raw) st).snd = st := by
  have hraw' : (raw == "") = false := beq_eq_false_iff_ne.mpr hraw
  have hlt : ¬ raw.length < 10 := Nat.not_lt.mpr hlen
  have hexpA : ¬ tok.expiresAt < now := Nat.not_lt.mpr (Nat.le_of_lt hlive)
  have hexpB : ¬ tok.expiresAt ≤ now := Nat.not_le.mpr hlive
  have huser : st.users.find? (fun u => u.id == tok.userId) = none := by
    rw [List.find?_eq_none]
    intro u hu
    simpa using hnouser u hu
  refine ⟨?_, ?_, ?_, ?_⟩ <;>
    simp [refreshA, refreshB, hraw', hlt, hfind, hexpA, hexpB, huser]

/-- C8 witness: refreshing the orphaned fixture token answers 401 and the
store is unchanged. -/
theorem C8_refresh_user_missing_witness :
    ((refreshA exHash 0 "t9" "rawsecret-N-0009" (some "rawsecret-O-0003")
        exOrphanState).fst.status = 401) ∧
    ((refreshA exHash 0 "t9" "rawsecret-N-0009" (some "rawsecret-O-0003")
        exOrphanState).snd = exOrphanState) := by
  have h := C8_refresh_user_missing exHash 0 "t9" "rawsecret-N-0009" "rawsecret-O-0003"
      exOrphanState exTokenOrphan (by decide) (by decide) (by decide) (by decide)
      (by decide)
  exact ⟨h.1, h.2.1⟩

/-- C2: a refresh secret whose hash matches no stored record, or only revoked
records, or whose matching live record is past its expiry, is answered 401 in
both variants — three independent failure scenarios; and a 200 is only
possible when a matching, non-revoked, non-expired record exists. -/
theorem C2_validate_refresh (hash : String → String) (now : Nat)
    (ftid fraw raw : String) (st : AuthState)
    (hraw : raw ≠ "") (hlen : 10 ≤ raw.length) :
    ((∀ t ∈ st.tokens, t.hashedToken ≠ hash raw) →
      (refreshA hash now ftid fraw (some raw) st).fst.status = 401 ∧
      (refreshB hash now (some raw) st).fst.status = 401) ∧
    ((∀ t ∈ st.tokens, t.hashedToken = hash raw → t.revokedAt ≠ none) →
      (refreshA hash now ftid fraw (some raw) st).fst.status = 401 ∧
      (refreshB hash now (some raw) st).fst.status = 401) ∧
    (∀ tok, findLiveByHash st.tokens (hash raw) = some tok → tok.expiresAt < now →
      (refreshA hash now ftid fraw (some raw) st).fst.status = 401 ∧
      (refreshB hash now (some raw) st).fst.status = 401) ∧
    ((refreshA hash now ftid fraw (some raw) st).fst.status = 200 →
      ∃ t ∈ st.tokens, t.hashedToken = hash raw ∧ t.revokedAt = none ∧ now ≤ t.expiresAt) ∧
    ((refreshB hash now (some raw) st).fst.status = 200 →
      ∃ t ∈ st.tokens, t.hashedToken = hash raw ∧ t.revokedAt = none ∧ now < t.expiresAt) := by
  have hraw' : (raw == "") = false := beq_eq_false_iff_ne.mpr hraw
  have hlt : ¬ raw.length < 10 := Nat.not_lt.mpr hlen
  refine ⟨?_, ?_, ?_, ?_, ?_⟩
  · intro hno
    have hnone : findLiveByHash st.tokens (hash raw) = none := by
      rw [findLiveByHash, List.find?_eq_none]
      intro t ht
      simp only [isLiveWithHash, Bool.and_eq_true, beq_iff_eq, Option.isNone_iff_eq_none, not_and]
      intro he
      exact absurd he (hno t ht)
    constructor <;> simp [refreshA, refreshB, hraw', hlt, hnone]
  · intro hrev
    have hnone : findLiveByHash st.tokens (hash raw) = none := by
      rw [findLiveByHash, List.find?_eq_none]
      intro t ht
      simp only [isLiveWithHash, Bool.and_eq_true, beq_iff_eq, Option.isNone_iff_eq_none, not_and]
      intro he
      exact hrev t ht he
    constructor <;> simp [refreshA, refreshB, hraw', hlt, hnone]
  · intro tok hfind hexp
    constructor <;>
      simp [refreshA, refreshB, hraw', hlt, hfind, hexp, Nat.le_of_lt hexp]
  · intro hs
    rcases hfe : findLiveByHash st.tokens (hash raw) with _ | tok
    · simp [refreshA, hraw', hfe] at hs
    · by_cases hexp : tok.expiresAt < now
      · simp [refreshA, hraw', hfe, hexp] at hs
      · have hfe' := hfe
        rw [findLiveByHash] at hfe'
        have hmem := List.mem_of_find?_eq_some hfe'
        have hpred := List.find?_some hfe'
        simp only [isLiveWithHash, Bool.and_eq_true, beq_iff_eq,
          Option.isNone_iff_eq_none] at hpred
        exact ⟨tok, hmem, hpred.1, hpred.2, Nat.not_lt.mp hexp⟩
  · intro hs
    rcases hfe : findLiveByHash st.tokens (hash raw) with _ | tok
    · simp [refreshB, hlt, hfe] at hs
    · by_cases hexp : tok.expiresAt ≤ now
      · simp [refreshB, hlt, hfe, hexp] at hs
      · have hfe' := hfe
        rw [findLiveByHash] at hfe'
        have hmem := List.mem_of_find?_eq_some hfe'
        have hpred := List.find?_some hfe'
        simp only [isLiveWithHash, Bool.and_eq_true, beq_iff_eq,
          Option.isNone_iff_eq_none] at hpred
        exact ⟨tok, hmem, hpred.1, hpred.2, Nat.not_le.mp hexp⟩

/-- C2 witness: 401 for a never-issued secret, for the revoked fixture secret,
and for the fixture token once its expiry (t = 1000) has passed. -/
theorem C2_validate_refresh_witness :
    ((refreshA exHash 0 "t9" "rawsecret-N-0009" (some "rawsecret-Z-9999")
        exState).fst.status = 401) ∧
    ((refreshB exHash 0 (some exRawR) exRevokedState).fst.status = 401) ∧
    ((refreshA exHash 2000 "t9" "rawsecret-N-0009" (some exRawT)
        exState).fst.status = 401) := by
  refine ⟨?_, ?_, ?_⟩
  · exact ((C2_validate_refresh exHash 0 "t9" "rawsecret-N-0009" "rawsecret-Z-9999"
      exState (by decide) (by decide)).1 (by decide)).1
  · exact ((C2_validate_refresh exHash 0 "t9" "rawsecret-N-0009" exRawR
      exRevokedState (by decide) (by decide)).2.1 (by decide)).2
  · exact ((C2_validate_refresh exHash 2000 "t9" "rawsecret-N-0009" exRawT
      exState (by decide) (by decide)).2.2.1 exTokenT (by decide) (by decide)).1

/-- C9: a login hitting an existing user matches it by email and updates only
the identity-linkage fields googleId, name and image; id, email, role and the
active flag are carried over unchanged (the bootstrap role rule is not
re-applied), and every user with a different email is still stored — in both
variants. -/
theorem C9_login_existing_user_frame (hash : String → String) (now : Nat)
    (payload : GooglePayload) (fuid ftid raw : String) (st : AuthState) (u : User)
    (hfind : st.users.find? (fun v => v.email == payload.email) = some u) :
    ((loginA hash now payload fuid ftid raw st).fst.user =
      some { u with googleId := some payload.sub, name := payload.name,
                    image := payload.picture }) ∧
    ((loginB hash now payload fuid ftid raw st).fst.user =
      some { u with googleId := some payload.sub, name := payload.name,
                    image := payload.picture }) ∧
    (({ u with googleId := some payload.sub, name := payload.name,
               image := payload.picture } : User)
      ∈ (loginA hash now payload fuid ftid raw st).snd.users) ∧
    (({ u with googleId := some payload.sub, name := payload.name,
               image := payload.picture } : User)
      ∈ (loginB hash now payload fuid ftid raw st).snd.users) ∧
    (∀ v ∈ st.users, v.email ≠ payload.email →
      v ∈ (loginA hash now payload fuid ftid raw st).snd.users ∧
      v ∈ (loginB hash now payload fuid ftid raw st).snd.users) := by
  refine ⟨?_, ?_, ?_, ?_, ?_⟩
  · simp [loginA, upsertUserByEmail, hfind]
  · simp [loginB, upsertUserByEmail, hfind]
  · simp only [loginA, upsertUserByEmail, hfind]
    exact mem_updateFirstByEmail_self hfind
  · simp only [loginB, upsertUserByEmail, hfind]
    exact mem_updateFirstByEmail_self hfind
  · intro v hv hne
    constructor
    · simp only [loginA, upsertUserByEmail, hfind]
      exact mem_updateFirstByEmail_of_ne hv hne
    · simp only [loginB, upsertUserByEmail, hfind]
      exact mem_updateFirstByEmail_of_ne hv hne

/-- C9 witness: logging the fixture user in again with a new googleId and name
keeps id, email, role and active flag, and only relinks the identity fields. -/
theorem C9_login_existing_user_frame_witness :
    (loginA exHash 0 exPayload "u9" "t9" exRawT exState).fst.user =
      some { exUser with googleId := some exPayload.sub, name := exPayload.name,
                         image := exPayload.picture } := by
  exact (C9_login_existing_user_frame exHash 0 exPayload "u9" "t9" exRawT exState
    exUser (by decide)).1

/-- C5: the raw refresh secret is returned in the issuing response, and —
hashing being one-way (no fixed point at the secret) and the generated row ids
being distinct from it — the persisted token store never contains the raw
secret after a login (either variant) or after a refresh rotation: only its
hash (and, in the rotation chain, the hash of the replacing secret) is kept. -/
theorem C5_raw_secret_never_stored (hash : String → String) (now : Nat)
    (payload : GooglePayload) (fuid ftid raw fraw : String) (st : AuthState)
    (h1 : hash raw ≠ raw) (h2 : raw ∉ storeStrings st.tokens)
    (h3 : fuid ≠ raw) (h4 : ftid ≠ raw) (h5 : ∀ u ∈ st.users, u.id ≠ raw)
    (h6 : hash fraw ≠ fraw) (h7 : fraw ∉ storeStrings st.tokens)
    (h8 : ftid ≠ fraw) (h9 : ∀ u ∈ st.users, u.id ≠ fraw) :
    ((loginA hash now payload fuid ftid raw st).fst.refreshToken = some raw ∧
      raw ∉ storeStrings (loginA hash now payload fuid ftid raw st).snd.tokens) ∧
    ((loginB hash now payload fuid ftid raw st).fst.refreshToken = some raw ∧
      raw ∉ storeStrings (loginB hash now payload fuid ftid raw st).snd.tokens) ∧
    (∀ body, fraw ∉ storeStrings (refreshA hash now ftid fraw body st).snd.tokens) ∧
    ((refreshA hash now ftid fraw (some raw) st).fst.status = 200 →
      (refreshA hash now ftid fraw (some raw) st).fst.refreshToken = some fraw) := by
  have hid : (upsertUserByEmail st.users payload.email payload.sub payload.name
      payload.picture (if st.users.length == 0 then Role.SUPER_ADMIN else Role.USER)
      fuid).fst.id ≠ raw := by
    rcases upsertUserByEmail_fst_id st.users payload.email payload.sub payload.name
        payload.picture (if st.users.length == 0 then Role.SUPER_ADMIN else Role.USER)
        fuid with h | ⟨u, hu, h⟩
    · rw [h]; exact h3
    · rw [h]; exact h5 u hu
  refine ⟨⟨rfl, ?_⟩, ⟨rfl, ?_⟩, ?_, ?_⟩
  · intro hmem
    rw [mem_storeStrings] at hmem
    obtain ⟨t, ht, ha⟩ := hmem
    simp only [loginA, List.mem_append, List.mem_singleton] at ht
    rcases ht with ht | ht
    · exact h2 (mem_storeStrings.mpr ⟨t, ht, ha⟩)
    · subst ht
      simp only [tokenStrings, Option.toList_none, List.append_nil, List.mem_cons,
        List.mem_singleton, List.not_mem_nil, or_false] at ha
      rcases ha with ha | ha | ha
      · exact h4 ha.symm
      · exact hid ha.symm
      · exact h1 ha.symm
  · intro hmem
    rw [mem_storeStrings] at hmem
    obtain ⟨t, ht, ha⟩ := hmem
    simp only [loginB, List.mem_append, List.mem_singleton] at ht
    rcases ht with ht | ht
    · exact h2 (mem_storeStrings.mpr ⟨t, (List.mem_filter.mp ht).1, ha⟩)
    · subst ht
      simp only [tokenStrings, Option.toList_none, List.append_nil, List.mem_cons,
        List.mem_singleton, List.not_mem_nil, or_false] at ha
      rcases ha with ha | ha | ha
      · exact h4 ha.symm
      · exact hid ha.symm
      · exact h1 ha.symm
  · intro body
    cases body with
    | none => exact h7
    | some r =>
      by_cases hr : (r == "") = true
      · simpa [refreshA, hr] using h7
      · rcases hfe : findLiveByHash st.tokens (hash r) with _ | tok
        · simpa [refreshA, hr, hfe] using h7
        · by_cases hexp : tok.expiresAt < now
          · simpa [refreshA, hr, hfe, hexp] using h7
          · rcases hus : st.users.find? (fun u => u.id == tok.userId) with _ | user
            · simpa [refreshA, hr, hfe, hexp, hus] using h7
            · have huser : user ∈ st.users := List.mem_of_find?_eq_some hus
              simp only [refreshA, hr, hfe, hexp, hus, Bool.false_eq_true, if_false,
                if_neg hexp]
              intro hmem
              rw [mem_storeStrings] at hmem
              obtain ⟨t, ht, ha⟩ := hmem
              simp only [List.mem_append, List.mem_singleton] at ht
              rcases ht with ht | ht
              · exact not_mem_storeStrings_revoke h7 h6
                  (mem_storeStrings.mpr ⟨t, ht, ha⟩)
              · subst ht
                simp only [tokenStrings, Option.toList_none, List.append_nil,
                  List.mem_cons, List.mem_singleton, List.not_mem_nil, or_false] at ha
                rcases ha with ha | ha | ha
                · exact h8 ha.symm
                · exact h9 user huser ha.symm
                · exact h6 ha.symm
  · intro hs
    by_cases hr : (raw == "") = true
    · simp [refreshA, hr] at hs
    · rcases hfe : findLiveByHash st.tokens (hash raw) with _ | tok
      · simp [refreshA, hr, hfe] at hs
      · by_cases hexp : tok.expiresAt < now
        · simp [refreshA, hr, hfe, hexp] at hs
        · rcases hus : st.users.find? (fun u => u.id == tok.userId) with _ | user
          · simp [refreshA, hr, hfe, hexp, hus] at hs
          · simp [refreshA, hr, hfe, hexp, hus]

/-- C5 witness: after a fresh login and a rotation, neither raw fixture secret
appears anywhere in the stored token table, while each response returns it. -/
theorem C5_raw_secret_never_stored_witness :
    ((loginA exHash 0 exNewPayload "u9" "t9" "rawsecret-L-0009" exState).fst.refreshToken
        = some "rawsecret-L-0009") ∧
    ("rawsecret-L-0009" ∉ storeStrings
        (loginA exHash 0 exNewPayload "u9" "t9" "rawsecret-L-0009" exState).snd.tokens) ∧
    ("rawsecret-N-0010" ∉ storeStrings
        (refreshA exHash 0 "t9" "rawsecret-N-0010" (some exRawT) exState).snd.tokens) := by
  have h := C5_raw_secret_never_stored exHash 0 exNewPayload "u9" "t9"
      "rawsecret-L-0009" "rawsecret-N-0010" exState (by decide) (by decide) (by decide)
      (by decide) (by decide) (by decide) (by decide) (by decide) (by decide)
  exact ⟨h.1.1, h.1.2, h.2.2.1 (some exRawT)⟩

/-- C1 counterexample: the claim quantifies over both observed `Refresh`
implementations, but in the non-rotating variant B two sequential refreshes
with the same valid token T both answer 200 (not one success and one 401),
the store is left unchanged, and T still validates afterwards. -/
theorem C1_counterexample_variantB :
    ((refreshB exHash 0 (some exRawT) exState).fst.status = 200) ∧
    ((refreshB exHash 0 (some exRawT)
        (refreshB exHash 0 (some exRawT) exState).snd).fst.status = 200) ∧
    ((refreshB exHash 0 (some exRawT) exState).snd = exState) ∧
    (findLiveByHash exState.tokens (exHash exRawT) = some exTokenT) := by
  refine ⟨?_, ?_, ?_, ?_⟩ <;> decide

/-- C1 (amended): in the rotating variant A, with a valid token T (unique live
record for its hash, unexpired, owner present) and a fresh replacement secret,
the first refresh succeeds, after it T's hash no longer resolves to any live
record (T can never again validate in the resulting store), and a second
sequential refresh with T answers 401 and mutates nothing. -/
theorem C1_rotation_exactly_once_variantA (hash : String → String)
    (now now2 : Nat) (ftid fraw ftid2 fraw2 raw : String)
    (st : AuthState) (tok : RefreshTokenRec) (user : User)
    (hraw : raw ≠ "")
    (hfind : findLiveByHash st.tokens (hash raw) = some tok)
    (huniq : ∀ t ∈ st.tokens, t.hashedToken = hash raw → t.revokedAt = none →
      t.id = tok.id)
    (hexp : ¬ tok.expiresAt < now)
    (hus : st.users.find? (fun u => u.id == tok.userId) = some user)
    (hfresh : hash fraw ≠ hash raw) :
    ((refreshA hash now ftid fraw (some raw) st).fst.status = 200) ∧
    (findLiveByHash (refreshA hash now ftid fraw (some raw) st).snd.tokens
      (hash raw) = none) ∧
    ((refreshA hash now2 ftid2 fraw2 (some raw)
        (refreshA hash now ftid fraw (some raw) st).snd).fst.status = 401) ∧
    ((refreshA hash now2 ftid2 fraw2 (some raw)
        (refreshA hash now ftid fraw (some raw) st).snd).snd =
      (refreshA hash now ftid fraw (some raw) st).snd) := by
  have hraw' : (raw == "") = false := beq_eq_false_iff_ne.mpr hraw
  have hstatus : (refreshA hash now ftid fraw (some raw) st).fst.status = 200 := by
    simp [refreshA, hraw', hfind, hexp, hus]
  have hstate : (refreshA hash now ftid fraw (some raw) st).snd =
      { users := st.users,
        tokens := revokeTokenById st.tokens tok.id now (hash fraw) ++
          [{ id := ftid, userId := user.id, hashedToken := hash fraw,
             expiresAt := now + THIRTY_DAYS_MS, revokedAt := none,
             replacedByToken := none }] } := by
    simp [refreshA, hraw', hfind, hexp, hus]
  have hnone : findLiveByHash (refreshA hash now ftid fraw (some raw) st).snd.tokens
      (hash raw) = none := by
    rw [hstate]
    rw [findLiveByHash, List.find?_eq_none]
    intro t ht
    simp only [List.mem_append, List.mem_singleton] at ht
    rcases ht with ht | ht
    · rw [revokeTokenById, List.mem_map] at ht
      obtain ⟨t0, ht0, hgt⟩ := ht
      by_cases hid : (t0.id == tok.id) = true
      · rw [if_pos hid] at hgt
        subst hgt
        simp [isLiveWithHash]
      · rw [if_neg hid] at hgt
        subst hgt
        simp only [isLiveWithHash, Bool.and_eq_true, beq_iff_eq,
          Option.isNone_iff_eq_none, not_and]
        intro hh hr
        exact absurd (by simpa using huniq t0 ht0 hh hr) hid
    · subst ht
      simp [isLiveWithHash, hfresh]
  refine ⟨hstatus, hnone, ?_, ?_⟩ <;>
  · generalize hS : (refreshA hash now ftid fraw (some raw) st).snd = S at hnone ⊢
    simp [refreshA, hraw', hnone]

/-- C1 witness: rotating the fixture token succeeds once and the sequential
replay answers 401. -/
theorem C1_rotation_exactly_once_variantA_witness :
    ((refreshA exHash 0 "t9" "rawsecret-F-0002" (some exRawT) exState).fst.status
        = 200) ∧
    ((refreshA exHash 5 "t10" "rawsecret-G-0003" (some exRawT)
        (refreshA exHash 0 "t9" "rawsecret-F-0002" (some exRawT) exState).snd).fst.status
        = 401) := by
  have h := C1_rotation_exactly_once_variantA exHash 0 5 "t9" "rawsecret-F-0002"
      "t10" "rawsecret-G-0003" exRawT exState exTokenT exUser (by decide) (by decide)
      (by decide) (by decide) (by decide) (by decide)
  exact ⟨h.1, h.2.2.1⟩

end AliasAdmin
